import Mathlib

/-!
Verification of the serial-receive protocol core of the OpenMote-CC2538
sniffer (`src/sniffer_serial_receive.cpp`).

The C++ file holds the framing state machine, the message decoder and the
ACK/NACK send-window controller.  The mutable globals of the `Sniffer`
namespace together with the hardware collaborators (radio interrupt,
channel, LEDs, ready notification) are embedded as one explicit state
record; every handler becomes a pure state transformer translated
line-by-line from the source.  Constants and the helper `readUint16` live
in a header that is not part of the sources; those are modelled from the
specification and marked as such.
-/

namespace Sniffer

/-- Modelled from the spec: the physical capacity of the outbound packet
buffer (`sizeof(buffer)` in `checkReceivedIndexAndSeqNr`).  The buffer is
declared in the missing `sniffer.hpp`; the spec only says it is a fixed
capacity circular buffer, so the concrete capacity is a free parameter of
the development fixed here. -/
def bufferSize : Nat := 2048

/-- Modelled from the spec: sentinel byte marking the end of the used
region of the outbound buffer ("A reserved sentinel byte value marks end
of used region", §3); declared in the missing header. -/
def END_OF_BUFFER_BYTE : Nat := 0xFF

/-- Modelled from the spec: initial value of the running CRC accumulator
("reset to a fixed initial constant at frame start", §3); declared in the
missing header. -/
def CRC_INIT : Nat := 0xFFFF

/-- Modelled from the spec: offset of the 2-byte sequence number inside a
buffered packet ("carrying a 2-byte sequence number at a fixed offset
within the packet", §3), right after the leading length byte; declared in
the missing header. -/
def BUFFER_SEQNR_OFFSET : Nat := 1

/-- Modelled from the spec (§6): message layout is byte 0 = type, byte 1 =
declared length, payload from byte 2; an Ack payload is a 2-byte index
followed by a 2-byte sequence number, low byte first. -/
def ACK_INDEX_OFFSET : Nat := 2

/-- Modelled from the spec (§6): offset of the sequence number in an Ack. -/
def ACK_SEQNR_OFFSET : Nat := 4

/-- Modelled from the spec (§6): a Nack has the same shape as an Ack. -/
def NACK_INDEX_OFFSET : Nat := 2

/-- Modelled from the spec (§6): offset of the sequence number in a Nack. -/
def NACK_SEQNR_OFFSET : Nat := 4

/-- Modelled from the spec (§6): a Reset carries a 1-byte channel as its
payload, hence at offset 2. -/
def RESET_CHANNEL_OFFSET : Nat := 2

/-- Modelled from the spec (§6): declared payload length of an Ack
(2-byte index + 2-byte sequence number). -/
def ACK_MESSAGE_LENGTH : Nat := 4

/-- Modelled from the spec (§6): declared payload length of a Nack. -/
def NACK_MESSAGE_LENGTH : Nat := 4

/-- Modelled from the spec (§6): declared payload length of a Reset
(one channel byte). -/
def RESET_MESSAGE_LENGTH : Nat := 1

/-- Modelled from the spec (§6): declared payload length of a Stop. -/
def STOP_MESSAGE_LENGTH : Nat := 0

namespace SerialDataType

/-- Modelled from the spec (§8 scenario): the Ack type byte is `0x01`. -/
def Ack : Nat := 1

/-- Modelled from the spec: the Nack type byte; its concrete value is in
the missing header, only distinctness from the other types matters. -/
def Nack : Nat := 2

/-- Modelled from the spec: the Reset type byte. -/
def Reset : Nat := 3

/-- Modelled from the spec: the Stop type byte. -/
def Stop : Nat := 4

end SerialDataType

/-- A byte read from a `uint8_t` array embedded as a function: the C
storage guarantees the value fits in a byte, so every read is taken
`% 256`. -/
def byteAt (buf : Nat → Nat) (i : Nat) : Nat :=
  buf i % 256

/-- Modelled from the spec: `readUint16` is declared in the missing
header; §6 gives the wire layout `<idx_lo><idx_hi>`, so the 16-bit value
stored at offset `i` of a byte array is low byte first. -/
def readUint16 (buf : Nat → Nat) (i : Nat) : Nat :=
  byteAt buf i + 256 * byteAt buf (i + 1)

/-- The mutable globals of the `Sniffer` namespace together with the
hardware collaborators the handlers drive.  Byte arrays are embedded as
functions from offsets to byte values; the handlers verified here never
write to `buffer` (it is fed by the out-of-scope radio path). -/
structure SnifferState where
  receivingStatus : Bool
  escaping : Bool
  crc : Nat
  message : Nat → Nat
  messageLen : Nat
  previousReceivedIndex : Nat
  bufferIndexRadio : Nat
  bufferIndexSerialSend : Nat
  bufferIndexAcked : Nat
  seqNr : Nat
  buffer : Nat → Nat
  ledGreen : Bool
  ledYellow : Bool
  ledOrange : Bool
  ledRed : Bool
  radioInterruptEnabled : Bool
  radioChannel : Option Nat
  readySent : Bool
  radioRxFlushed : Bool
  radioRxOn : Bool

/-- `SerialReceive::receivedInvalidMessage`: light the fault indicator and
force a resend from the last acknowledged point. -/
def receivedInvalidMessage (s : SnifferState) : SnifferState :=
  { s with ledOrange := true, bufferIndexSerialSend := s.bufferIndexAcked }

/-- `SerialReceive::checkReceivedIndexAndSeqNr`: the index must lie inside
the buffer, inside the circular window `[bufferIndexAcked, radio]` (the
radio index is snapshotted once), and the sequence number stored in the
buffer at the index must match. -/
def checkReceivedIndexAndSeqNr (s : SnifferState)
    (receivedIndex receivedSeqNr : Nat) : Bool :=
  let cachedBufferIndexRadio := s.bufferIndexRadio
  if bufferSize ≤ receivedIndex then
    false
  else if cachedBufferIndexRadio < s.bufferIndexAcked
      ∧ receivedIndex < s.bufferIndexAcked
      ∧ cachedBufferIndexRadio < receivedIndex then
    false
  else if s.bufferIndexAcked ≤ cachedBufferIndexRadio
      ∧ (receivedIndex < s.bufferIndexAcked
         ∨ cachedBufferIndexRadio < receivedIndex) then
    false
  else if readUint16 s.buffer (receivedIndex + BUFFER_SEQNR_OFFSET) ≠ receivedSeqNr then
    false
  else
    true

/-- `SerialReceive::receivedACK`: drop duplicates of the previous index,
validate, then advance the acked index past the acknowledged packet. -/
def receivedACK (s : SnifferState) : SnifferState :=
  let receivedIndex := readUint16 s.message ACK_INDEX_OFFSET
  let receivedSeqNr := readUint16 s.message ACK_SEQNR_OFFSET
  if s.previousReceivedIndex = receivedIndex then
    s
  else if checkReceivedIndexAndSeqNr s receivedIndex receivedSeqNr then
    { s with
      bufferIndexAcked := (receivedIndex + byteAt s.buffer receivedIndex) % 65536,
      previousReceivedIndex := receivedIndex }
  else
    receivedInvalidMessage s

/-- The success branch of `SerialReceive::receivedNACK` (source lines
208-218): advance the acked index past the packet at `receivedIndex`,
wrapping to 0 when the byte there is the end-of-buffer sentinel, and force
the send index back to the acked index. -/
def nackAdvance (s : SnifferState) (receivedIndex : Nat) : SnifferState :=
  let packetLength := byteAt s.buffer receivedIndex
  let newAcked := (receivedIndex + packetLength) % 65536
  let newAcked := if byteAt s.buffer newAcked = END_OF_BUFFER_BYTE then 0 else newAcked
  { s with
    bufferIndexAcked := newAcked,
    bufferIndexSerialSend := newAcked,
    previousReceivedIndex := receivedIndex }

/-- `SerialReceive::receivedNACK`: an index equal to the previous one is
accepted outright, otherwise the shared validation runs; on success the
acked index advances and the send index is forced back to it. -/
def receivedNACK (s : SnifferState) : SnifferState :=
  let receivedIndex := readUint16 s.message NACK_INDEX_OFFSET
  let receivedSeqNr := readUint16 s.message NACK_SEQNR_OFFSET
  let validIndex :=
    if s.previousReceivedIndex = receivedIndex then
      true
    else
      checkReceivedIndexAndSeqNr s receivedIndex receivedSeqNr
  if validIndex then
    nackAdvance s receivedIndex
  else
    receivedInvalidMessage s

/-- `SerialReceive::receivedRESET`: disable the radio interrupt, set the
idle LED pattern, zero the indices and the sequence number, then select
the channel, send Ready and re-enable reception only when the channel byte
lies in [11, 26]. -/
def receivedRESET (s : SnifferState) : SnifferState :=
  let s := { s with radioInterruptEnabled := false }
  let s := { s with ledGreen := true, ledYellow := false,
                    ledOrange := false, ledRed := false }
  let s := { s with bufferIndexRadio := 0, bufferIndexSerialSend := 0,
                    bufferIndexAcked := 0, seqNr := 0 }
  let channel := byteAt s.message RESET_CHANNEL_OFFSET
  if 11 ≤ channel ∧ channel ≤ 26 then
    { s with radioChannel := some channel,
             readySent := true,
             radioRxFlushed := true,
             radioInterruptEnabled := true,
             radioRxOn := true }
  else
    s

/-- `SerialReceive::receivedSTOP`: disable the radio interrupt, flush the
radio receive queue, turn every LED off and zero the indices and the
sequence number. -/
def receivedSTOP (s : SnifferState) : SnifferState :=
  { s with radioInterruptEnabled := false,
           radioRxFlushed := true,
           ledGreen := false, ledYellow := false,
           ledOrange := false, ledRed := false,
           bufferIndexRadio := 0, bufferIndexSerialSend := 0,
           bufferIndexAcked := 0, seqNr := 0 }

/-- `SerialReceive::decodeReceivedMessage`: dispatch on the (type,
declared length) pair; an unrecognized pair is a decode failure. -/
def decodeReceivedMessage (s : SnifferState) : SnifferState × Bool :=
  if byteAt s.message 0 = SerialDataType.Ack ∧ byteAt s.message 1 = ACK_MESSAGE_LENGTH then
    (receivedACK s, true)
  else if byteAt s.message 0 = SerialDataType.Nack ∧ byteAt s.message 1 = NACK_MESSAGE_LENGTH then
    (receivedNACK s, true)
  else if byteAt s.message 0 = SerialDataType.Reset ∧ byteAt s.message 1 = RESET_MESSAGE_LENGTH then
    (receivedRESET s, true)
  else if byteAt s.message 0 = SerialDataType.Stop ∧ byteAt s.message 1 = STOP_MESSAGE_LENGTH then
    (receivedSTOP s, true)
  else
    (s, false)

/-- `SerialReceive::receivedStartByte`: enter the `Receiving` state with a
fresh in-progress frame. -/
def receivedStartByte (s : SnifferState) : SnifferState :=
  { s with receivingStatus := true, escaping := false,
           messageLen := 0, crc := CRC_INIT }

/-- The acceptance condition of `SerialReceive::receivedEndByte` (source
lines 101-106): not mid-escape, at least 4 bytes, CRC accumulator zero,
and the declared length byte consistent with the total length. -/
def frameChecksPass (s : SnifferState) : Prop :=
  s.escaping = false ∧ 4 ≤ s.messageLen ∧ s.crc = 0
    ∧ s.messageLen = byteAt s.message 1 + 2

instance (s : SnifferState) : Decidable (frameChecksPass s) := by
  unfold frameChecksPass; infer_instance

/-- `SerialReceive::receivedEndByte`: an empty frame is a resync marker;
otherwise the frame is decoded when every check passes, any failure forces
a resend from the acked point, and `receivingStatus` is always cleared. -/
def receivedEndByte (s : SnifferState) : SnifferState :=
  if s.messageLen = 0 then
    { receivedStartByte s with bufferIndexSerialSend := s.bufferIndexAcked }
  else
    let step : SnifferState × Bool :=
      if frameChecksPass s then decodeReceivedMessage s else (s, false)
    let s1 := step.1
    let s1 :=
      if step.2 then s1
      else { s1 with bufferIndexSerialSend := s1.bufferIndexAcked }
    { s1 with receivingStatus := false }

/-! ## Helper lemmas shared by the claims -/

theorem receivedACK_of_prev_eq (s : SnifferState)
    (h : s.previousReceivedIndex = readUint16 s.message ACK_INDEX_OFFSET) :
    receivedACK s = s := by
  unfold receivedACK
  simp [h]

theorem checkReceivedIndexAndSeqNr_invariant (s : SnifferState)
    (t : SnifferState) (i q : Nat)
    (hradio : t.bufferIndexRadio = s.bufferIndexRadio)
    (hacked : t.bufferIndexAcked = s.bufferIndexAcked)
    (hbuf : t.buffer = s.buffer) :
    checkReceivedIndexAndSeqNr t i q = checkReceivedIndexAndSeqNr s i q := by
  unfold checkReceivedIndexAndSeqNr
  rw [hradio, hacked, hbuf]

/-! ## Claims -/

/-- C9: duplicate suppression of Acks is keyed on the index alone.  When
the received index equals `previousReceivedIndex`, `receivedACK` returns
with the state untouched (in particular no fault indicator and no index
movement), whatever the received sequence number is and whether or not the
index would still pass the window validation. -/
theorem ack_duplicate_keyed_on_index_alone (s : SnifferState)
    (h : s.previousReceivedIndex = readUint16 s.message ACK_INDEX_OFFSET) :
    receivedACK s = s :=
  receivedACK_of_prev_eq s h

def dupAckState : SnifferState :=
  { receivingStatus := true, escaping := false, crc := 0,
    message := fun i => if i = 2 then 5 else if i = 4 then 9 else 0,
    messageLen := 8, previousReceivedIndex := 5,
    bufferIndexRadio := 0, bufferIndexSerialSend := 3, bufferIndexAcked := 0,
    seqNr := 0, buffer := fun _ => 17,
    ledGreen := true, ledYellow := false, ledOrange := false, ledRed := false,
    radioInterruptEnabled := true, radioChannel := some 11,
    readySent := true, radioRxFlushed := true, radioRxOn := true }

/-- Witness for C9 at a concrete state: the received index 5 equals the
previous index while the stored sequence number (`17 + 256*17`) differs
from the received one (9) and the index 5 lies outside the window
`[0, 0]`; the Ack is still ignored without any state change. -/
theorem ack_duplicate_keyed_on_index_alone_witness :
    receivedACK dupAckState = dupAckState :=
  ack_duplicate_keyed_on_index_alone dupAckState (by decide)

/-- C4: delivering the same `(index, seqNr)` Ack twice in a row is
idempotent: the second delivery (the handler re-run on the state left by
the first, with the same message bytes) changes nothing at all — in
particular `bufferIndexAcked` and `previousReceivedIndex` are unchanged. -/
theorem ack_idempotent (s : SnifferState) :
    receivedACK (receivedACK s) = receivedACK s := by
  by_cases hdup : s.previousReceivedIndex = readUint16 s.message ACK_INDEX_OFFSET
  · rw [receivedACK_of_prev_eq s hdup, receivedACK_of_prev_eq s hdup]
  · by_cases hchk : checkReceivedIndexAndSeqNr s (readUint16 s.message ACK_INDEX_OFFSET)
        (readUint16 s.message ACK_SEQNR_OFFSET) = true
    · have h1 : receivedACK s =
          { s with
            bufferIndexAcked := (readUint16 s.message ACK_INDEX_OFFSET
              + byteAt s.buffer (readUint16 s.message ACK_INDEX_OFFSET)) % 65536,
            previousReceivedIndex := readUint16 s.message ACK_INDEX_OFFSET } := by
        unfold receivedACK
        simp [hdup, hchk]
      rw [h1]
      exact receivedACK_of_prev_eq _ rfl
    · have h1 : receivedACK s = receivedInvalidMessage s := by
        unfold receivedACK
        simp [hdup, hchk]
      rw [h1]
      unfold receivedACK
      have hchk2 : checkReceivedIndexAndSeqNr (receivedInvalidMessage s)
          (readUint16 (receivedInvalidMessage s).message ACK_INDEX_OFFSET)
          (readUint16 (receivedInvalidMessage s).message ACK_SEQNR_OFFSET) = false := by
        rw [checkReceivedIndexAndSeqNr_invariant s (receivedInvalidMessage s) _ _ rfl rfl rfl]
        exact Bool.not_eq_true _ ▸ hchk
      simp only [receivedInvalidMessage] at hchk2 ⊢
      simp [hdup, hchk2]

/-- C8: a delimiter byte while `receivingStatus` is set and `messageLen`
is still zero (two consecutive delimiters) is treated as a fresh
start-of-frame — `escaping` cleared, `messageLen` zeroed, CRC reset to its
initial constant, still receiving — and forces
`bufferIndexSerialSend = bufferIndexAcked`; no decode is attempted. -/
theorem end_byte_empty_frame_resync (s : SnifferState)
    (_hr : s.receivingStatus = true) (h0 : s.messageLen = 0) :
    receivedEndByte s =
      { s with receivingStatus := true, escaping := false, messageLen := 0,
               crc := CRC_INIT, bufferIndexSerialSend := s.bufferIndexAcked } := by
  unfold receivedEndByte receivedStartByte
  simp [h0]

def emptyFrameState : SnifferState :=
  { dupAckState with messageLen := 0, escaping := true, crc := 44 }

/-- Witness for C8 at a concrete state. -/
theorem end_byte_empty_frame_resync_witness :
    receivedEndByte emptyFrameState =
      { emptyFrameState with
        receivingStatus := true, escaping := false,
        messageLen := 0, crc := CRC_INIT,
        bufferIndexSerialSend := emptyFrameState.bufferIndexAcked } :=
  end_byte_empty_frame_resync emptyFrameState (by decide) (by decide)

theorem receivedNACK_of_valid (s : SnifferState)
    (hvalid : s.previousReceivedIndex = readUint16 s.message NACK_INDEX_OFFSET
      ∨ checkReceivedIndexAndSeqNr s (readUint16 s.message NACK_INDEX_OFFSET)
          (readUint16 s.message NACK_SEQNR_OFFSET) = true) :
    receivedNACK s = nackAdvance s (readUint16 s.message NACK_INDEX_OFFSET) := by
  unfold receivedNACK
  rcases hvalid with h | h
  · simp [h]
  · by_cases hdup : s.previousReceivedIndex = readUint16 s.message NACK_INDEX_OFFSET
    · simp [hdup]
    · simp [hdup, h]

theorem receivedNACK_of_invalid (s : SnifferState)
    (hdup : s.previousReceivedIndex ≠ readUint16 s.message NACK_INDEX_OFFSET)
    (hchk : checkReceivedIndexAndSeqNr s (readUint16 s.message NACK_INDEX_OFFSET)
        (readUint16 s.message NACK_SEQNR_OFFSET) = false) :
    receivedNACK s = receivedInvalidMessage s := by
  unfold receivedNACK
  simp [hdup, hchk]

/-- C5: a Nack whose received index equals `previousReceivedIndex` is
accepted and processed through the success branch for every value of the
received sequence number — the index-range check and the sequence-number
check are never consulted on that path; only when the index differs from
`previousReceivedIndex` does the shared validation decide, and its
failure routes the Nack to invalid-message handling. -/
theorem nack_previous_index_bypasses_validation (s : SnifferState) :
    (s.previousReceivedIndex = readUint16 s.message NACK_INDEX_OFFSET →
      receivedNACK s = nackAdvance s (readUint16 s.message NACK_INDEX_OFFSET))
    ∧ (s.previousReceivedIndex ≠ readUint16 s.message NACK_INDEX_OFFSET →
        checkReceivedIndexAndSeqNr s (readUint16 s.message NACK_INDEX_OFFSET)
          (readUint16 s.message NACK_SEQNR_OFFSET) = false →
        receivedNACK s = receivedInvalidMessage s) :=
  ⟨fun h => receivedNACK_of_valid s (Or.inl h),
   fun hdup hchk => receivedNACK_of_invalid s hdup hchk⟩

def dupNackState : SnifferState :=
  { dupAckState with
    message := fun i => if i = 2 then 5 else if i = 4 then 9 else 0,
    previousReceivedIndex := 5,
    buffer := fun i => if i = 5 then 10 else if i = 15 then 255 else 17 }

/-- Witness for C5: the received index 5 equals the previous one while
the received sequence number 9 differs from the stored one; the Nack is
still processed through the success branch. -/
theorem nack_previous_index_bypasses_validation_witness :
    receivedNACK dupNackState = nackAdvance dupNackState 5 :=
  (nack_previous_index_bypasses_validation dupNackState).1 (by decide)

/-- C3: after a Nack with a valid index, `bufferIndexAcked` equals the
received index plus the packet length byte stored at that index — except
that it becomes 0 when the buffer byte at the advanced position is the
end-of-buffer sentinel; `bufferIndexSerialSend` equals the resulting
`bufferIndexAcked`, and `previousReceivedIndex` equals the received
index. -/
theorem nack_valid_advances_acked (s : SnifferState) (i pl : Nat)
    (hi : i = readUint16 s.message NACK_INDEX_OFFSET)
    (hpl : pl = byteAt s.buffer i)
    (hov : i + pl < 65536)
    (hvalid : s.previousReceivedIndex = i
      ∨ checkReceivedIndexAndSeqNr s i (readUint16 s.message NACK_SEQNR_OFFSET) = true) :
    (byteAt s.buffer (i + pl) = END_OF_BUFFER_BYTE →
        (receivedNACK s).bufferIndexAcked = 0)
    ∧ (byteAt s.buffer (i + pl) ≠ END_OF_BUFFER_BYTE →
        (receivedNACK s).bufferIndexAcked = i + pl)
    ∧ (receivedNACK s).bufferIndexSerialSend = (receivedNACK s).bufferIndexAcked
    ∧ (receivedNACK s).previousReceivedIndex = i := by
  subst hi
  rw [receivedNACK_of_valid s hvalid]
  simp only [nackAdvance, ← hpl, Nat.mod_eq_of_lt hov]
  by_cases hb : byteAt s.buffer (readUint16 s.message NACK_INDEX_OFFSET + pl)
      = END_OF_BUFFER_BYTE <;>
    simp [hb]

def nackState : SnifferState :=
  { dupAckState with
    message := fun i => if i = 2 then 5 else if i = 4 then 17 else 0,
    previousReceivedIndex := 3,
    bufferIndexAcked := 4, bufferIndexRadio := 30,
    buffer := fun i => if i = 5 then 10 else if i = 6 then 17 else 0 }

/-- Witness for C3: index 5 lies in the window `[4, 30]`, the stored
sequence number at offset 6 is 17 and matches, the packet length byte at
index 5 is 10 and the byte at 15 is not the sentinel, so the acked and
send indices both become 15 and the previous index becomes 5. -/
theorem nack_valid_advances_acked_witness :
    (receivedNACK nackState).bufferIndexAcked = 15
    ∧ (receivedNACK nackState).bufferIndexSerialSend
        = (receivedNACK nackState).bufferIndexAcked
    ∧ (receivedNACK nackState).previousReceivedIndex = 5 := by
  have h := nack_valid_advances_acked nackState 5 10 (by decide) (by decide)
    (by decide) (Or.inr (by decide))
  exact ⟨h.2.1 (by decide), h.2.2.1, h.2.2.2⟩

def invalidAckState : SnifferState :=
  { dupAckState with
    message := fun i => if i = 2 then 5 else 0,
    previousReceivedIndex := 9,
    bufferIndexRadio := 0, bufferIndexAcked := 0,
    bufferIndexSerialSend := 7 }

/-- Counterexample to C6 as stated: an Ack whose index 5 lies outside the
window `[0, 0]` (and differs from the previous index 9) is routed to
invalid-message handling, which sets `bufferIndexSerialSend` from 7 to
`bufferIndexAcked = 0` — so an Ack delivery can change
`bufferIndexSerialSend`. -/
theorem ack_never_forces_resend_counterexample :
    (receivedACK invalidAckState).bufferIndexSerialSend
      ≠ invalidAckState.bufferIndexSerialSend := by decide

/-- C6 (amended): processing a Nack always ends with
`bufferIndexSerialSend = bufferIndexAcked` (in particular after successful
processing); an Ack leaves `bufferIndexSerialSend` unchanged when it is
duplicate-suppressed or successfully processed, but an Ack that fails the
index/sequence validation sets `bufferIndexSerialSend` to
`bufferIndexAcked` through invalid-message handling. -/
theorem nack_forces_resend_ack_only_on_failure (s : SnifferState) :
    (receivedNACK s).bufferIndexSerialSend = (receivedNACK s).bufferIndexAcked
    ∧ (s.previousReceivedIndex = readUint16 s.message ACK_INDEX_OFFSET →
        (receivedACK s).bufferIndexSerialSend = s.bufferIndexSerialSend)
    ∧ (s.previousReceivedIndex ≠ readUint16 s.message ACK_INDEX_OFFSET →
        checkReceivedIndexAndSeqNr s (readUint16 s.message ACK_INDEX_OFFSET)
          (readUint16 s.message ACK_SEQNR_OFFSET) = true →
        (receivedACK s).bufferIndexSerialSend = s.bufferIndexSerialSend)
    ∧ (s.previousReceivedIndex ≠ readUint16 s.message ACK_INDEX_OFFSET →
        checkReceivedIndexAndSeqNr s (readUint16 s.message ACK_INDEX_OFFSET)
          (readUint16 s.message ACK_SEQNR_OFFSET) = false →
        (receivedACK s).bufferIndexSerialSend = s.bufferIndexAcked) := by
  refine ⟨?_, ?_, ?_, ?_⟩
  · unfold receivedNACK
    by_cases hdup : s.previousReceivedIndex = readUint16 s.message NACK_INDEX_OFFSET
    · simp [hdup, nackAdvance]
    · by_cases hchk : checkReceivedIndexAndSeqNr s (readUint16 s.message NACK_INDEX_OFFSET)
          (readUint16 s.message NACK_SEQNR_OFFSET) = true
      · simp [hdup, hchk, nackAdvance]
      · simp [hdup, hchk, receivedInvalidMessage]
  · intro h
    rw [receivedACK_of_prev_eq s h]
  · intro hdup hchk
    unfold receivedACK
    simp [hdup, hchk]
  · intro hdup hchk
    unfold receivedACK
    simp [hdup, hchk, receivedInvalidMessage]

/-- Witness for C6 (amended) at a concrete state: the failing-validation
branch sets the send index to the acked index. -/
theorem nack_forces_resend_ack_only_on_failure_witness :
    (receivedACK invalidAckState).bufferIndexSerialSend
      = invalidAckState.bufferIndexAcked :=
  (nack_forces_resend_ack_only_on_failure invalidAckState).2.2.2 (by decide) (by decide)

/-- C1: for a completed frame (end delimiter with `receivingStatus` set
and `messageLen > 0`), the frame is handed to the message decoder exactly
when `escaping` is false, `messageLen ≥ 4`, the CRC accumulator is zero
and `messageLen` equals the declared length byte plus 2 (the outcome is
then the decoder's outcome); when any of those checks fails the decoder is
not consulted, and whenever the checks or the decode itself fail,
`bufferIndexSerialSend` is forced to `bufferIndexAcked`;
`receivingStatus` is cleared in every case. -/
theorem end_byte_complete_frame (s : SnifferState)
    (_hr : s.receivingStatus = true) (hm : 0 < s.messageLen) :
    (receivedEndByte s).receivingStatus = false
    ∧ (frameChecksPass s →
        ((decodeReceivedMessage s).2 = true →
          receivedEndByte s =
            { (decodeReceivedMessage s).1 with receivingStatus := false })
        ∧ ((decodeReceivedMessage s).2 = false →
          receivedEndByte s =
            { (decodeReceivedMessage s).1 with
              bufferIndexSerialSend := (decodeReceivedMessage s).1.bufferIndexAcked,
              receivingStatus := false }))
    ∧ (¬ frameChecksPass s →
        receivedEndByte s =
          { s with bufferIndexSerialSend := s.bufferIndexAcked,
                   receivingStatus := false }) := by
  have hm0 : ¬ s.messageLen = 0 := by omega
  refine ⟨?_, fun hc => ⟨fun hd => ?_, fun hd => ?_⟩, fun hc => ?_⟩
  · unfold receivedEndByte
    by_cases hc : frameChecksPass s <;> by_cases hd : (decodeReceivedMessage s).2 <;>
      simp [hm0, hc, hd]
  · unfold receivedEndByte
    simp [hm0, hc, hd]
  · unfold receivedEndByte
    simp [hm0, hc, hd]
  · unfold receivedEndByte
    simp [hm0, hc]

def c1State : SnifferState :=
  { dupAckState with
    escaping := true, crc := 0, messageLen := 8,
    bufferIndexSerialSend := 3, bufferIndexAcked := 1 }

/-- Witness for C1: a frame that ends while still mid-escape fails the
checks, so the send index is forced back to the acked index and
`receivingStatus` is cleared. -/
theorem end_byte_complete_frame_witness :
    (receivedEndByte c1State).receivingStatus = false
    ∧ receivedEndByte c1State =
        { c1State with bufferIndexSerialSend := c1State.bufferIndexAcked,
                       receivingStatus := false } :=
  ⟨(end_byte_complete_frame c1State (by decide) (by decide)).1,
   (end_byte_complete_frame c1State (by decide) (by decide)).2.2 (by decide)⟩

/-- C2: boundaries of the shared index/sequence validation: any index at
or past the buffer capacity is rejected; an index exactly equal to
`bufferIndexAcked` or exactly equal to the `bufferIndexRadio` snapshot is
accepted (in both the non-wrapped case `acked ≤ radio` and the wrapped
case `radio < acked`) provided the stored sequence number matches; an
index one step below `bufferIndexAcked` or one step above the radio
snapshot is rejected whatever the sequence number; and any accepted index
has a matching stored sequence number. -/
theorem check_window_boundaries (s : SnifferState) (q : Nat) :
    (∀ i, bufferSize ≤ i → checkReceivedIndexAndSeqNr s i q = false)
    ∧ (s.bufferIndexAcked < bufferSize →
        readUint16 s.buffer (s.bufferIndexAcked + BUFFER_SEQNR_OFFSET) = q →
        checkReceivedIndexAndSeqNr s s.bufferIndexAcked q = true)
    ∧ (s.bufferIndexRadio < bufferSize →
        readUint16 s.buffer (s.bufferIndexRadio + BUFFER_SEQNR_OFFSET) = q →
        checkReceivedIndexAndSeqNr s s.bufferIndexRadio q = true)
    ∧ (s.bufferIndexAcked ≤ s.bufferIndexRadio → 0 < s.bufferIndexAcked →
        checkReceivedIndexAndSeqNr s (s.bufferIndexAcked - 1) q = false)
    ∧ (s.bufferIndexAcked ≤ s.bufferIndexRadio →
        checkReceivedIndexAndSeqNr s (s.bufferIndexRadio + 1) q = false)
    ∧ (s.bufferIndexRadio + 1 < s.bufferIndexAcked →
        checkReceivedIndexAndSeqNr s (s.bufferIndexAcked - 1) q = false)
    ∧ (s.bufferIndexRadio + 1 < s.bufferIndexAcked →
        checkReceivedIndexAndSeqNr s (s.bufferIndexRadio + 1) q = false)
    ∧ (∀ i, checkReceivedIndexAndSeqNr s i q = true →
        readUint16 s.buffer (i + BUFFER_SEQNR_OFFSET) = q) := by
  refine ⟨fun i hi => ?_, fun h1 h2 => ?_, fun h1 h2 => ?_, fun h1 h2 => ?_,
          fun h1 => ?_, fun h1 => ?_, fun h1 => ?_, fun i h => ?_⟩
  · simp only [checkReceivedIndexAndSeqNr]
    split_ifs with g1 g2 g3 g4 <;> first | rfl | omega | tauto
  · simp only [checkReceivedIndexAndSeqNr]
    split_ifs with g1 g2 g3 g4 <;> first | rfl | omega | tauto
  · simp only [checkReceivedIndexAndSeqNr]
    split_ifs with g1 g2 g3 g4 <;> first | rfl | omega | tauto
  · simp only [checkReceivedIndexAndSeqNr]
    split_ifs with g1 g2 g3 g4 <;> first | rfl | omega | tauto
  · simp only [checkReceivedIndexAndSeqNr]
    split_ifs with g1 g2 g3 g4 <;> first | rfl | omega | tauto
  · simp only [checkReceivedIndexAndSeqNr]
    split_ifs with g1 g2 g3 g4 <;> first | rfl | omega | tauto
  · simp only [checkReceivedIndexAndSeqNr]
    split_ifs with g1 g2 g3 g4 <;> first | rfl | omega | tauto
  · simp only [checkReceivedIndexAndSeqNr] at h
    split_ifs at h with g1 g2 g3 g4 <;> first | tauto | exact not_not.mp g4

def windowState : SnifferState :=
  { dupAckState with
    bufferIndexAcked := 4, bufferIndexRadio := 30,
    buffer := fun i => if i = 5 then 7 else if i = 31 then 7 else 0 }

/-- Witness for C2 in the non-wrapped window `[4, 30]` with matching
stored sequence number 7: both bounds are accepted, one step outside each
bound is rejected, and the capacity (2048) is rejected. -/
theorem check_window_boundaries_witness :
    checkReceivedIndexAndSeqNr windowState 4 7 = true
    ∧ checkReceivedIndexAndSeqNr windowState 30 7 = true
    ∧ checkReceivedIndexAndSeqNr windowState 3 7 = false
    ∧ checkReceivedIndexAndSeqNr windowState 31 7 = false
    ∧ checkReceivedIndexAndSeqNr windowState 2048 7 = false :=
  ⟨(check_window_boundaries windowState 7).2.1 (by decide) (by decide),
   (check_window_boundaries windowState 7).2.2.1 (by decide) (by decide),
   (check_window_boundaries windowState 7).2.2.2.1 (by decide) (by decide),
   (check_window_boundaries windowState 7).2.2.2.2.1 (by decide),
   (check_window_boundaries windowState 7).1 2048 (by decide)⟩

/-- C7: a Reset zeroes `bufferIndexRadio`, `bufferIndexSerialSend`,
`bufferIndexAcked` and `seqNr` unconditionally, before the channel byte is
examined; when the channel byte is outside [11, 26] no channel is
selected, no Ready notification is sent and the radio-receive interrupt
stays disabled, leaving the device disabled; an in-range channel is
selected, Ready is sent and the radio receive path is flushed and
re-enabled. -/
theorem reset_behavior (s : SnifferState) :
    ((receivedRESET s).bufferIndexRadio = 0
      ∧ (receivedRESET s).bufferIndexSerialSend = 0
      ∧ (receivedRESET s).bufferIndexAcked = 0
      ∧ (receivedRESET s).seqNr = 0)
    ∧ (¬ (11 ≤ byteAt s.message RESET_CHANNEL_OFFSET
          ∧ byteAt s.message RESET_CHANNEL_OFFSET ≤ 26) →
        receivedRESET s =
          { s with radioInterruptEnabled := false,
                   ledGreen := true, ledYellow := false,
                   ledOrange := false, ledRed := false,
                   bufferIndexRadio := 0, bufferIndexSerialSend := 0,
                   bufferIndexAcked := 0, seqNr := 0 })
    ∧ (11 ≤ byteAt s.message RESET_CHANNEL_OFFSET
        ∧ byteAt s.message RESET_CHANNEL_OFFSET ≤ 26 →
        receivedRESET s =
          { s with ledGreen := true, ledYellow := false,
                   ledOrange := false, ledRed := false,
                   bufferIndexRadio := 0, bufferIndexSerialSend := 0,
                   bufferIndexAcked := 0, seqNr := 0,
                   radioChannel := some (byteAt s.message RESET_CHANNEL_OFFSET),
                   readySent := true, radioRxFlushed := true,
                   radioInterruptEnabled := true, radioRxOn := true }) := by
  refine ⟨?_, fun h => ?_, fun h => ?_⟩
  · unfold receivedRESET
    by_cases h : 11 ≤ byteAt s.message RESET_CHANNEL_OFFSET
        ∧ byteAt s.message RESET_CHANNEL_OFFSET ≤ 26 <;>
      simp [h]
  · unfold receivedRESET
    simp [h]
  · unfold receivedRESET
    simp [h]

def resetState : SnifferState :=
  { dupAckState with
    message := fun i => if i = 0 then 3 else if i = 1 then 1 else 30,
    bufferIndexRadio := 40, bufferIndexSerialSend := 20, bufferIndexAcked := 10,
    seqNr := 99, radioInterruptEnabled := false, radioChannel := none,
    readySent := false, radioRxFlushed := false, radioRxOn := false }

/-- Witness for C7: a Reset frame whose channel byte is 30 (out of
[11, 26]) zeroes the indices and the sequence number, selects no channel,
sends no Ready and leaves the radio-receive interrupt disabled. -/
theorem reset_behavior_witness :
    ((receivedRESET resetState).bufferIndexRadio = 0
      ∧ (receivedRESET resetState).bufferIndexSerialSend = 0
      ∧ (receivedRESET resetState).bufferIndexAcked = 0
      ∧ (receivedRESET resetState).seqNr = 0)
    ∧ receivedRESET resetState =
        { resetState with
          radioInterruptEnabled := false,
          ledGreen := true, ledYellow := false,
          ledOrange := false, ledRed := false,
          bufferIndexRadio := 0, bufferIndexSerialSend := 0,
          bufferIndexAcked := 0, seqNr := 0 } :=
  ⟨(reset_behavior resetState).1, (reset_behavior resetState).2.1 (by decide)⟩

theorem receivedRESET_prev (s : SnifferState) :
    (receivedRESET s).previousReceivedIndex = s.previousReceivedIndex := by
  unfold receivedRESET
  by_cases h : 11 ≤ byteAt s.message RESET_CHANNEL_OFFSET
      ∧ byteAt s.message RESET_CHANNEL_OFFSET ≤ 26 <;>
    simp [h]

/-- C10: Reset and Stop zero the three buffer indices and `seqNr` but
leave `previousReceivedIndex` at its stale pre-Reset/pre-Stop value, so
the first Ack arriving afterwards whose index equals that stale value is
silently ignored as a duplicate (no state change at all). -/
theorem reset_stop_leave_stale_previous_index (s : SnifferState) (m : Nat → Nat)
    (h : readUint16 m ACK_INDEX_OFFSET = s.previousReceivedIndex) :
    (receivedRESET s).previousReceivedIndex = s.previousReceivedIndex
    ∧ (receivedSTOP s).previousReceivedIndex = s.previousReceivedIndex
    ∧ ((receivedRESET s).bufferIndexRadio = 0
       ∧ (receivedRESET s).bufferIndexSerialSend = 0
       ∧ (receivedRESET s).bufferIndexAcked = 0
       ∧ (receivedRESET s).seqNr = 0)
    ∧ ((receivedSTOP s).bufferIndexRadio = 0
       ∧ (receivedSTOP s).bufferIndexSerialSend = 0
       ∧ (receivedSTOP s).bufferIndexAcked = 0
       ∧ (receivedSTOP s).seqNr = 0)
    ∧ receivedACK { receivedRESET s with message := m }
        = { receivedRESET s with message := m }
    ∧ receivedACK { receivedSTOP s with message := m }
        = { receivedSTOP s with message := m } := by
  refine ⟨receivedRESET_prev s, rfl, ?_, ⟨rfl, rfl, rfl, rfl⟩, ?_, ?_⟩
  · unfold receivedRESET
    by_cases hc : 11 ≤ byteAt s.message RESET_CHANNEL_OFFSET
        ∧ byteAt s.message RESET_CHANNEL_OFFSET ≤ 26 <;>
      simp [hc]
  · apply receivedACK_of_prev_eq
    show (receivedRESET s).previousReceivedIndex = readUint16 m ACK_INDEX_OFFSET
    rw [receivedRESET_prev s, h]
  · apply receivedACK_of_prev_eq
    show (receivedSTOP s).previousReceivedIndex = readUint16 m ACK_INDEX_OFFSET
    rw [show (receivedSTOP s).previousReceivedIndex = s.previousReceivedIndex from rfl, h]

def staleAckMessage : Nat → Nat :=
  fun i => if i = 2 then 5 else if i = 4 then 77 else 0

/-- Witness for C10: after a Reset (or Stop) of a state whose previous
index is 5, an Ack for index 5 with an arbitrary sequence number 77 is
ignored without any state change. -/
theorem reset_stop_leave_stale_previous_index_witness :
    (receivedRESET dupAckState).previousReceivedIndex
        = dupAckState.previousReceivedIndex
    ∧ receivedACK { receivedRESET dupAckState with message := staleAckMessage }
        = { receivedRESET dupAckState with message := staleAckMessage }
    ∧ receivedACK { receivedSTOP dupAckState with message := staleAckMessage }
        = { receivedSTOP dupAckState with message := staleAckMessage } :=
  ⟨(reset_stop_leave_stale_previous_index dupAckState staleAckMessage (by decide)).1,
   (reset_stop_leave_stale_previous_index dupAckState staleAckMessage (by decide)).2.2.2.2.1,
   (reset_stop_leave_stale_previous_index dupAckState staleAckMessage (by decide)).2.2.2.2.2⟩

end Sniffer
